import Mathlib

/-!
Shallow embedding of the session & history core of the single-page chat
client in `src/.github/workflows/index.tsx`.

The embedding keeps the source's names where possible.  DOM wiring, theme
handling, speech recognition and the model-API handle are external
collaborators; the model response stream is represented by the list of text
fragments it delivers together with a success/failure terminal event.
Clock reads (`Date.now()`, `new Date().toISOString()`) and the
locale-dependent `toLocaleString` date formatting are passed in as explicit
parameters.
-/

namespace AIChat

/-- `Message.role` in index.tsx: `'user' | 'model'`. -/
inductive Role where
  | user
  | model
deriving DecidableEq

/-- The `meta` field attached to user messages for rendering
(`meta: { ...userProfile }`; only `avatar` and `username` are consumed). -/
structure MessageMeta where
  avatar : String
  username : String
deriving DecidableEq

/-- `Message` (index.tsx lines 16-24).  `text` is `parts[0].text`; every
message in the program has exactly one part. -/
structure Message where
  role : Role
  text : String
  meta : Option MessageMeta
deriving DecidableEq

/-- `ChatSession` (index.tsx lines 26-31).  `id` is a `Date.now()`
millisecond timestamp, kept as `Nat`. -/
structure ChatSession where
  id : Nat
  startTime : String
  title : String
  history : List Message
deriving DecidableEq

/-- `UserProfile` (index.tsx lines 33-38). -/
structure UserProfile where
  username : String
  avatar : String
  password : Option String
  chatHistory : List ChatSession
deriving DecidableEq

/-- `GUEST_PROFILE` (index.tsx lines 43-47). -/
def GUEST_PROFILE : UserProfile :=
  { username := "You", avatar := "👤", password := none, chatHistory := [] }

/-- The mutable state of `main()`: the persisted user collection
(`localStorage[USERS_KEY]`), the per-tab authenticated-username marker
(`sessionStorage[CURRENT_USER_SESSION_KEY]`), and the in-memory
conversation state (index.tsx lines 176-179). -/
structure AppState where
  users : List UserProfile
  sessionMarker : Option String
  currentUser : Option UserProfile
  currentMessages : List Message
  currentLoadedSessionId : Option Nat
deriving DecidableEq

/-!
Executable character-level counterparts of the JavaScript string
operations the source uses (`trim`, `substring`, `toLowerCase`,
`includes`, `join`, `replace`).  The core-library `String` functions are
byte-position loops that the kernel cannot evaluate, so the embedding
works on `String.data` character lists instead.  JS operates on UTF-16
code units and Unicode-aware lowercasing where these operate on Unicode
scalar values and ASCII lowercasing; no claim depends on the difference.
-/

/-- JavaScript `String.prototype.trim`. -/
def jsTrim (s : String) : String :=
  ⟨((s.data.dropWhile Char.isWhitespace).reverse.dropWhile Char.isWhitespace).reverse⟩

/-- JavaScript `s.substring(0, n)`. -/
def jsTake (s : String) (n : Nat) : String := ⟨s.data.take n⟩

/-- JavaScript `String.prototype.toLowerCase`. -/
def jsToLower (s : String) : String := ⟨s.data.map Char.toLower⟩

/-- JavaScript `array.join('')` on strings. -/
def jsJoin (l : List String) : String := ⟨(l.map (·.data)).flatten⟩

/-- JavaScript `array.join(' ')` on strings. -/
def jsJoinSpace (l : List String) : String :=
  ⟨(List.intersperse [' '] (l.map (·.data))).flatten⟩

/-- Does `pat` occur at the head of `l`? (helper for `strIncludes`). -/
def charsLeads (pat : List Char) (l : List Char) : Bool :=
  match pat, l with
  | [], _ => true
  | _ :: _, [] => false
  | p :: ps, c :: cs => p == c && charsLeads ps cs

/-- Does `pat` occur anywhere in `l`? (helper for `strIncludes`). -/
def charsIncl (pat : List Char) (l : List Char) : Bool :=
  match l with
  | [] => charsLeads pat []
  | _ :: rest => charsLeads pat l || charsIncl pat rest

/-- JavaScript `Array.prototype.findIndex`, as used on the user list;
`none` stands for the `-1` not-found result. -/
def findIndex (p : α → Bool) : List α → Option Nat
  | [] => none
  | a :: rest => if p a then some 0 else (findIndex p rest).map (· + 1)

/-- `getCurrentUserProfile` (index.tsx lines 233-235): `currentUser || GUEST_PROFILE`. -/
def getCurrentUserProfile (st : AppState) : UserProfile :=
  st.currentUser.getD GUEST_PROFILE

/-- The id minted by `saveChatSession` (index.tsx line 302):
`currentLoadedSessionId || Date.now()` (`0` is falsy in JS). -/
def savedSessionId (currentLoadedSessionId : Option Nat) (now : Nat) : Nat :=
  match currentLoadedSessionId with
  | some i => if i == 0 then now else i
  | none => now

/-- The `newSession` record built by `saveChatSession`
(index.tsx lines 301-306); `firstMsg` is `currentMessages[0]`. -/
def newSessionOf (firstMsg : Message) (currentMessages : List Message)
    (currentLoadedSessionId : Option Nat) (now : Nat) (nowIso : String) : ChatSession :=
  { id := savedSessionId currentLoadedSessionId now
    startTime := nowIso
    title := jsTake firstMsg.text 40 ++ "..."
    history := currentMessages }

/-- The user-list update performed by `saveChatSession`
(index.tsx lines 286-311).  The source mutates only the stored user
collection; the surrounding state is threaded by `saveChatSession` below.
`now` is `Date.now()`, `nowIso` is `new Date().toISOString()`. -/
def saveChatSessionUsers (users : List UserProfile) (currentUser : Option UserProfile)
    (currentMessages : List Message) (currentLoadedSessionId : Option Nat)
    (now : Nat) (nowIso : String) : List UserProfile :=
  match currentUser with
  | none => users
  | some cu =>
    match currentMessages with
    | [] => users
    | firstMsg :: _ =>
      match findIndex (fun u => u.username == cu.username) users with
      | none => users
      | some userIndex =>
        let userProfile := users.getD userIndex GUEST_PROFILE
        -- `s.id !== currentLoadedSessionId`: with a `null` id the strict
        -- comparison against a number is always true, so nothing is dropped.
        let sessions := userProfile.chatHistory.filter
          (fun s => !(some s.id == currentLoadedSessionId))
        let newSession : ChatSession :=
          newSessionOf firstMsg currentMessages currentLoadedSessionId now nowIso
        users.set userIndex { userProfile with chatHistory := newSession :: sessions }

/-- `saveChatSession` (index.tsx lines 286-311) as a state transition. -/
def saveChatSession (st : AppState) (now : Nat) (nowIso : String) : AppState :=
  { st with users := (saveChatSessionUsers st.users st.currentUser st.currentMessages
      st.currentLoadedSessionId now nowIso) }

/-- The user-list update performed by `deleteChatSession`
(index.tsx lines 313-328). -/
def deleteChatSessionUsers (users : List UserProfile) (currentUser : Option UserProfile)
    (id : Nat) : List UserProfile :=
  match currentUser with
  | none => users
  | some cu =>
    match findIndex (fun u => u.username == cu.username) users with
    | none => users
    | some userIndex =>
      let userProfile := users.getD userIndex GUEST_PROFILE
      users.set userIndex
        { userProfile with chatHistory := userProfile.chatHistory.filter (fun s => s.id != id) }

/-- `deleteChatSession` (index.tsx lines 313-328) as a state transition. -/
def deleteChatSession (st : AppState) (id : Nat) : AppState :=
  { st with users := deleteChatSessionUsers st.users st.currentUser id }

/-- `getChatSessions` (index.tsx lines 277-284). -/
def getChatSessions (st : AppState) : List ChatSession :=
  match st.currentUser with
  | none => []
  | some cu =>
    ((st.users.find? (fun u => u.username == cu.username)).map (·.chatHistory)).getD []

/-- The `new-chat-button` click handler (index.tsx lines 472-479):
save, then clear the conversation and its persisted-id. -/
def newChat (st : AppState) (now : Nat) (nowIso : String) : AppState :=
  let st1 := saveChatSession st now nowIso
  { st1 with currentMessages := [], currentLoadedSessionId := none }

/-- The `load-chat-button` handler installed by `showHistoryDetailView`
(index.tsx lines 407-422): save the active chat, then replace the
conversation with the chosen session's history and record its id. -/
def loadSession (st : AppState) (session : ChatSession) (now : Nat) (nowIso : String) :
    AppState :=
  let st1 := saveChatSession st now nowIso
  { st1 with currentMessages := session.history,
             currentLoadedSessionId := some session.id }

/-- The `logout-button` click handler (index.tsx lines 626-630) together
with `updateUIForLogout` (lines 245-254): save, clear the marker, drop the
identity and reset the conversation. -/
def logout (st : AppState) (now : Nat) (nowIso : String) : AppState :=
  let st1 := saveChatSession st now nowIso
  { st1 with sessionMarker := none, currentUser := none,
             currentMessages := [], currentLoadedSessionId := none }

/-- The login form submit handler (index.tsx lines 560-578).  On a
credential match the marker and identity are set and the conversation is
reset; otherwise (InvalidCredentials) the state is unchanged. -/
def login (st : AppState) (uname pw : String) : AppState :=
  match st.users.find? (fun u => u.username == uname && u.password == some pw) with
  | some user =>
    { st with sessionMarker := some user.username, currentUser := some user,
              currentMessages := [], currentLoadedSessionId := none }
  | none => st

/-- The signup form submit handler (index.tsx lines 592-616).  The
duplicate check uses the trimmed input, while the stored name falls back to
`'User'` when the trimmed input is empty (`username || 'User'`). -/
def signup (st : AppState) (rawUsername avatar pw : String) : AppState :=
  let username := jsTrim rawUsername
  if st.users.any (fun u => u.username == username) then st  -- DuplicateUsername
  else
    let newUser : UserProfile :=
      { username := if username == "" then "User" else username
        avatar := avatar
        password := some pw
        chatHistory := [] }
    { st with users := st.users ++ [newUser],
              sessionMarker := some newUser.username,
              currentUser := some newUser }

/-- The state `main()` starts from, before `checkCurrentUserSession` runs:
given the persisted user collection and the per-tab marker. -/
def startState (users : List UserProfile) (marker : Option String) : AppState :=
  { users := users, sessionMarker := marker, currentUser := none,
    currentMessages := [], currentLoadedSessionId := none }

/-- `checkCurrentUserSession` (index.tsx lines 256-274).  An empty marker
string is falsy in the source's `if (sessionUser)` test. -/
def checkCurrentUserSession (st : AppState) : AppState :=
  match st.sessionMarker with
  | none => st
  | some sessionUser =>
    if sessionUser == "" then st
    else
      match st.users.find? (fun u => u.username == sessionUser) with
      | none => st
      | some userProfile =>
        match userProfile.chatHistory with
        | [] => { st with currentUser := some userProfile }
        | latestSession :: _ =>
          { st with currentUser := some userProfile,
                    currentMessages := latestSession.history,
                    currentLoadedSessionId := some latestSession.id }

/-- The terminal outcome of one model-response stream: the fragments
delivered in order, and whether the stream completed or threw.  A failure
after `chunks` fragments models an error thrown mid-iteration of
`sendMessageStream` (index.tsx lines 513-524). -/
inductive StreamEvent where
  | success (chunks : List String)
  | failure (chunks : List String)
deriving DecidableEq

/-- The chunk sanitisation applied to the live view:
`chunk.text.replace(/\n/g, '<br>')` (index.tsx line 520). -/
def sanitizeChunk (s : String) : String :=
  ⟨(s.data.map (fun c => if c = '\n' then "<br>".data else [c])).flatten⟩

/-- The failure notice appended to the response container
(index.tsx line 531). -/
def errorNotice : String := "<strong>Error:</strong> Could not retrieve response."

/-- Result of one chat-form submit: the new state plus the final content of
the model response container in the transcript view. -/
structure SubmitResult where
  state : AppState
  responseView : String
deriving DecidableEq

/-- The user message built by the submit handler (index.tsx lines 491-495):
`meta: { ...userProfile }` spreads the acting profile; only its avatar and
username are consumed by rendering. -/
def mkUserMessage (profile : UserProfile) (prompt : String) : Message :=
  { role := Role.user, text := prompt, meta := some ⟨profile.avatar, profile.username⟩ }

/-- Lines 490-496 of the submit handler: append the user message. -/
def appendUserMessage (st : AppState) (prompt : String) : AppState :=
  { st with currentMessages :=
      st.currentMessages ++ [mkUserMessage (getCurrentUserProfile st) prompt] }

/-- The `chat-form` submit handler (index.tsx lines 481-537).  An input
that is empty after trimming returns early.  Otherwise the user message is
appended, the request streams: on completion one model message holding the
accumulated `responseText` is appended; on failure nothing further is
appended and the error notice is concatenated onto the partial view. -/
def formSubmit (st : AppState) (rawInput : String) (ev : StreamEvent) : SubmitResult :=
  let prompt := jsTrim rawInput
  if prompt == "" then ⟨st, ""⟩
  else
    let st1 := appendUserMessage st prompt
    match ev with
    | StreamEvent.success chunks =>
      let responseText := jsJoin chunks
      ⟨{ st1 with currentMessages :=
           st1.currentMessages ++ [{ role := Role.model, text := responseText, meta := none }] },
       jsJoin (chunks.map sanitizeChunk)⟩
    | StreamEvent.failure chunks =>
      ⟨st1, jsJoin (chunks.map sanitizeChunk) ++ errorNotice⟩

/-- Substring test, JavaScript `String.prototype.includes`. -/
def strIncludes (s pat : String) : Bool := charsIncl pat.data s.data

/-- The per-session search text: `session.history.map(m => m.parts[0].text).join(' ')`
(index.tsx lines 349-351). -/
def sessionSearchText (s : ChatSession) : String :=
  jsJoinSpace (s.history.map (·.text))

/-- The match predicate of `renderChatHistoryList` (index.tsx lines 347-357),
with the locale date formatting `new Date(...).toLocaleString()` abstracted
as `fmt`.  `lowerCaseFilter` is the already-lowercased query. -/
def sessionMatches (fmt : String → String) (lowerCaseFilter : String) (s : ChatSession) :
    Bool :=
  strIncludes (jsToLower s.title) lowerCaseFilter ||
  strIncludes (jsToLower (fmt s.startTime)) lowerCaseFilter ||
  strIncludes (jsToLower (sessionSearchText s)) lowerCaseFilter

/-- `filterSessions`: the session filtering performed by
`renderChatHistoryList` (index.tsx lines 344-357). -/
def filterSessions (fmt : String → String) (query : String)
    (sessions : List ChatSession) : List ChatSession :=
  sessions.filter (sessionMatches fmt (jsToLower query))

/-- The match condition as worded by the spec: the query occurs
case-insensitively in the title, the formatted start time, or the
concatenation of the messages' text (no separator).  Kept separate from
`sessionMatches` to compare the two. -/
def specSessionMatches (fmt : String → String) (query : String) (s : ChatSession) : Bool :=
  strIncludes (jsToLower s.title) (jsToLower query) ||
  strIncludes (jsToLower (fmt s.startTime)) (jsToLower query) ||
  strIncludes (jsToLower (jsJoin (s.history.map (·.text)))) (jsToLower query)

/-- A sequence of signups run from a fresh, empty store; each request is
(raw username, avatar, password). -/
def runSignups (reqs : List (String × String × String)) : AppState :=
  reqs.foldl (fun st r => signup st r.1 r.2.1 r.2.2) (startState [] none)

/-- The chat-session list stored for the profile at position `idx` of the
user collection (statement helper). -/
def sessionsAt (st : AppState) (idx : Nat) : List ChatSession :=
  (st.users.getD idx GUEST_PROFILE).chatHistory

/-- The chat-session list stored for the first profile named `name`
(statement helper). -/
def profileSessions (users : List UserProfile) (name : String) : List ChatSession :=
  ((users.find? (fun u => u.username == name)).map (·.chatHistory)).getD []

/-- Number of sessions carrying id `i` (statement helper). -/
def countIdIn (l : List ChatSession) (i : Nat) : Nat :=
  l.countP (fun s => s.id == i)

/-- `checkCurrentUserSession` applied to a fresh process start (index.tsx
lines 467-470: `initializeChat(); checkCurrentUserSession()`). -/
def startupState (users : List UserProfile) (marker : Option String) : AppState :=
  checkCurrentUserSession (startState users marker)

/-!  Concrete fixtures used by witnesses and counterexamples. -/

/-- A registered profile with no saved sessions. -/
def aliceProfile : UserProfile :=
  { username := "alice", avatar := "🧑", password := some "pw", chatHistory := [] }

/-- A user message as built by the submit handler for `aliceProfile`. -/
def hiMessage : Message :=
  { role := Role.user, text := "hi", meta := some ⟨"🧑", "alice"⟩ }

/-- A saved session with id 5. -/
def sessA : ChatSession :=
  { id := 5, startTime := "t5", title := "hi...", history := [hiMessage] }

/-- A saved session with id 7. -/
def sessB : ChatSession :=
  { id := 7, startTime := "t7", title := "yo...",
    history := [{ role := Role.user, text := "yo", meta := none }] }

/-- `aliceProfile` with two saved sessions, newest first. -/
def aliceWithSessions : UserProfile :=
  { aliceProfile with chatHistory := [sessA, sessB] }

/-- Alice authenticated, a one-message conversation not yet persisted. -/
def stFresh : AppState :=
  { users := [aliceProfile], sessionMarker := some "alice",
    currentUser := some aliceProfile, currentMessages := [hiMessage],
    currentLoadedSessionId := none }

/-- Alice authenticated with saved sessions; the active conversation is the
loaded session `sessA` (persisted-id 5). -/
def stLoaded : AppState :=
  { users := [aliceWithSessions], sessionMarker := some "alice",
    currentUser := some aliceWithSessions, currentMessages := [hiMessage],
    currentLoadedSessionId := some 5 }

/-- A session sharing `sessA`'s id 5 with different content. -/
def sessA2 : ChatSession :=
  { id := 5, startTime := "t9", title := "ho...",
    history := [{ role := Role.user, text := "ho", meta := none }] }

/-- Alice authenticated with a session list containing id 5 twice
(ids 5, 7, 5), and an empty active conversation. -/
def stDup : AppState :=
  { users := [{ aliceProfile with chatHistory := [sessA, sessB, sessA2] }],
    sessionMarker := some "alice",
    currentUser := some { aliceProfile with chatHistory := [sessA, sessB, sessA2] },
    currentMessages := [], currentLoadedSessionId := none }

/-- Unauthenticated state over a store holding `aliceProfile`, with two
guest messages in the active conversation. -/
def stGuest : AppState :=
  { users := [aliceProfile], sessionMarker := none, currentUser := none,
    currentMessages := [{ role := Role.user, text := "psst", meta := none },
                        { role := Role.model, text := "hm", meta := none }],
    currentLoadedSessionId := none }

/-- Scenario state: alice signed up on an empty store. -/
def c3State1 : AppState := signup (startState [] none) "alice" "🧑" "pw"

/-- Scenario state: after sending "hi" and streaming "hel","lo". -/
def c3State2 : AppState :=
  (formSubmit c3State1 "hi" (StreamEvent.success ["hel", "lo"])).state

/-- Scenario state: after start-new (which performs the save). -/
def c3State3 : AppState := newChat c3State2 1000 "d1"

/-- Scenario state: after sending "bye" and streaming "ok". -/
def c3State4 : AppState := (formSubmit c3State3 "bye" (StreamEvent.success ["ok"])).state

/-- Scenario state: after the final save. -/
def c3State5 : AppState := saveChatSession c3State4 3000 "d3"

/-- Literal-sequence state: save and start-new taken as two separate steps
after the "hi" exchange. -/
def c3LitState3 : AppState := newChat (saveChatSession c3State2 1000 "d1") 2000 "d2"

/-- Literal-sequence state: after sending "bye" and the final save. -/
def c3LitState5 : AppState :=
  saveChatSession ((formSubmit c3LitState3 "bye" (StreamEvent.success ["ok"])).state)
    3000 "d3"

/-- A concrete stand-in for the locale date formatting. -/
def fmtCE : String → String := fun _ => "date"

/-- A session whose two message texts are "ab" and "cd": the query "bc"
occurs in their plain concatenation "abcd" but not in the space-joined
search text "ab cd". -/
def sessCE : ChatSession :=
  { id := 1, startTime := "2020", title := "chat",
    history := [{ role := Role.user, text := "ab", meta := none },
                { role := Role.model, text := "cd", meta := none }] }

/-! Supporting lemmas. -/

theorem findIndex_lt_length {p : α → Bool} :
    ∀ {l : List α} {i : Nat}, findIndex p l = some i → i < l.length := by
  intro l
  induction l with
  | nil => intro i h; simp [findIndex] at h
  | cons a rest ih =>
    intro i h
    simp only [findIndex] at h
    by_cases hp : p a
    · simp only [hp, if_pos] at h
      cases h
      simp
    · simp only [hp, if_neg, Bool.false_eq_true, not_false_iff, Option.map_eq_some'] at h
      obtain ⟨j, hj, rfl⟩ := h
      have := ih hj
      simp only [List.length_cons]
      omega

theorem findIndex_getD {p : α → Bool} (d : α) :
    ∀ {l : List α} {i : Nat}, findIndex p l = some i → p (l.getD i d) = true := by
  intro l
  induction l with
  | nil => intro i h; simp [findIndex] at h
  | cons a rest ih =>
    intro i h
    simp only [findIndex] at h
    by_cases hp : p a
    · simp only [hp, if_pos] at h
      cases h
      simpa using hp
    · simp only [hp, if_neg, Bool.false_eq_true, not_false_iff, Option.map_eq_some'] at h
      obtain ⟨j, hj, rfl⟩ := h
      simpa using ih hj

theorem findIndex_set_self {p : α → Bool} {a : α} (ha : p a = true) :
    ∀ {l : List α} {i : Nat}, findIndex p l = some i → findIndex p (l.set i a) = some i := by
  intro l
  induction l with
  | nil => intro i h; simp [findIndex] at h
  | cons b rest ih =>
    intro i h
    simp only [findIndex] at h
    by_cases hp : p b
    · simp only [hp, if_pos] at h
      cases h
      simp [List.set, findIndex, ha]
    · simp only [hp, if_neg, Bool.false_eq_true, not_false_iff, Option.map_eq_some'] at h
      obtain ⟨j, hj, rfl⟩ := h
      simp [List.set, findIndex, hp, ih hj]

theorem getD_set_self (l : List α) (i : Nat) (a d : α) (h : i < l.length) :
    (l.set i a).getD i d = a := by
  rw [List.getD_eq_getElem?_getD, List.getElem?_set_self (by simpa using h)]
  rfl

theorem countP_add_countP_bnot (p : α → Bool) (l : List α) :
    l.countP p + l.countP (fun a => !(p a)) = l.length := by
  induction l with
  | nil => simp
  | cons a rest ih =>
    simp only [List.countP_cons, List.length_cons]
    cases hp : p a <;> simp [hp] <;> omega

theorem countP_filter_of_imp (q p : α → Bool) (l : List α)
    (h : ∀ a, q a = true → p a = true) : (l.filter p).countP q = l.countP q := by
  induction l with
  | nil => simp
  | cons a rest ih =>
    by_cases hp : p a
    · simp [List.filter_cons, hp, List.countP_cons, ih]
    · have hq : ¬ q a = true := fun hqa => hp (h a hqa)
      simp [List.filter_cons, hp, List.countP_cons, hq, ih]

theorem countP_filter_zero (q p : α → Bool) (l : List α)
    (h : ∀ a, q a = true → p a = false) : (l.filter p).countP q = 0 := by
  rw [List.countP_eq_zero]
  intro a ha
  rw [List.mem_filter] at ha
  intro hq
  have := h a hq
  rw [this] at ha
  exact Bool.false_ne_true ha.2

theorem charsIncl_nil (l : List Char) : charsIncl [] l = true := by
  cases l <;> rfl

/-- Unfolding of `saveChatSessionUsers` when the acting user is found. -/
theorem saveChatSessionUsers_found (users : List UserProfile) (cu : UserProfile)
    (firstMsg : Message) (rest : List Message) (loaded : Option Nat)
    (now : Nat) (nowIso : String) (idx : Nat)
    (h : findIndex (fun u => u.username == cu.username) users = some idx) :
    saveChatSessionUsers users (some cu) (firstMsg :: rest) loaded now nowIso =
      users.set idx
        { users.getD idx GUEST_PROFILE with chatHistory :=
            (newSessionOf firstMsg (firstMsg :: rest) loaded now nowIso ::
              (users.getD idx GUEST_PROFILE).chatHistory.filter
                (fun s => !(some s.id == loaded))) } := by
  simp only [saveChatSessionUsers]
  rw [h]

/-- Unfolding of `deleteChatSessionUsers` when the acting user is found. -/
theorem deleteChatSessionUsers_found (users : List UserProfile) (cu : UserProfile)
    (id : Nat) (idx : Nat)
    (h : findIndex (fun u => u.username == cu.username) users = some idx) :
    deleteChatSessionUsers users (some cu) id =
      users.set idx
        { users.getD idx GUEST_PROFILE with chatHistory :=
            ((users.getD idx GUEST_PROFILE).chatHistory.filter (fun s => s.id != id)) } := by
  simp only [deleteChatSessionUsers]
  rw [h]

/-! Claim theorems. -/

/-- C9: a successful login unconditionally resets the active conversation
to the empty message sequence with no persisted-id and leaves the
persistent store untouched; and messages exchanged while unauthenticated
are never written to the store, because `saveChatSession` without an
authenticated user is a no-op. -/
theorem c9_login_resets_conversation_and_discards_guest_chat :
    (∀ (st : AppState) (uname pw : String) (u : UserProfile),
      st.users.find? (fun v => v.username == uname && v.password == some pw) = some u →
      (login st uname pw).currentMessages = [] ∧
      (login st uname pw).currentLoadedSessionId = none ∧
      (login st uname pw).users = st.users ∧
      (login st uname pw).currentUser = some u) ∧
    (∀ (st : AppState) (now : Nat) (nowIso : String),
      st.currentUser = none → saveChatSession st now nowIso = st) := by
  constructor
  · intro st uname pw u h
    simp [login, h]
  · intro st now nowIso h
    obtain ⟨users, marker, cuser, msgs, lid⟩ := st
    dsimp only at h
    subst h
    rfl

/-- Witness for C9 at the concrete guest state `stGuest`. -/
theorem c9_witness :
    (stGuest.users.find? (fun v => v.username == "alice" && v.password == some "pw")
        = some aliceProfile ∧
      (login stGuest "alice" "pw").currentMessages = [] ∧
      (login stGuest "alice" "pw").users = stGuest.users) ∧
    (stGuest.currentUser = none ∧ saveChatSession stGuest 111 "iso" = stGuest) := by
  constructor
  · refine ⟨by decide, ?_, ?_⟩
    · exact (c9_login_resets_conversation_and_discards_guest_chat.1 stGuest "alice" "pw"
        aliceProfile (by decide)).1
    · exact (c9_login_resets_conversation_and_discards_guest_chat.1 stGuest "alice" "pw"
        aliceProfile (by decide)).2.2.1
  · exact ⟨rfl, c9_login_resets_conversation_and_discards_guest_chat.2 stGuest 111 "iso" rfl⟩

/-- C2: a send whose model stream fails (after zero or more fragments)
appends no message beyond the user prompt that was committed when the
request was issued: the message sequence afterwards equals the sequence at
the moment the streaming request was sent (its length is the pre-submit
length plus the one user message), the model-role messages are exactly
those from before the send, and the partial fragment text remains visible
in the transcript view (a prefix of the response container content). -/
theorem c2_failed_stream_commits_no_message (st : AppState) (raw : String)
    (chunks : List String) (h : jsTrim raw ≠ "") :
    (formSubmit st raw (StreamEvent.failure chunks)).state.currentMessages =
      (appendUserMessage st (jsTrim raw)).currentMessages ∧
    (formSubmit st raw (StreamEvent.failure chunks)).state.currentMessages.length =
      st.currentMessages.length + 1 ∧
    ((formSubmit st raw (StreamEvent.failure chunks)).state.currentMessages.filter
        (fun m => m.role == Role.model)) =
      st.currentMessages.filter (fun m => m.role == Role.model) ∧
    (∃ suffix, (formSubmit st raw (StreamEvent.failure chunks)).responseView =
      jsJoin (chunks.map sanitizeChunk) ++ suffix) := by
  have hbe : (jsTrim raw == "") = false := by
    cases hb : jsTrim raw == ""
    · rfl
    · exact absurd (by simpa using hb) h
  refine ⟨?_, ?_, ?_, ?_⟩
  · simp [formSubmit, hbe]
  · simp [formSubmit, hbe, appendUserMessage]
  · simp [formSubmit, hbe, appendUserMessage, List.filter_append, mkUserMessage]
  · exact ⟨errorNotice, by simp [formSubmit, hbe]⟩

/-- Witness for C2 at the concrete state `stFresh` with two fragments. -/
theorem c2_witness :
    jsTrim " who? " ≠ "" ∧
    (formSubmit stFresh " who? " (StreamEvent.failure ["par", "tial"])).state.currentMessages =
      (appendUserMessage stFresh (jsTrim " who? ")).currentMessages ∧
    (∃ suffix,
      (formSubmit stFresh " who? " (StreamEvent.failure ["par", "tial"])).responseView =
        jsJoin (["par", "tial"].map sanitizeChunk) ++ suffix) := by
  refine ⟨by decide, ?_, ?_⟩
  · exact (c2_failed_stream_commits_no_message stFresh " who? " ["par", "tial"] (by decide)).1
  · exact (c2_failed_stream_commits_no_message stFresh " who? " ["par", "tial"]
      (by decide)).2.2.2

/-- C6 counterexample: with message texts "ab" and "cd" the query "bc"
occurs in the plain concatenation "abcd" of the messages' text — so the
claim's match condition says the session matches — yet `filterSessions`
(which joins with a space, "ab cd") excludes it. -/
theorem c6_counterexample :
    specSessionMatches fmtCE "bc" sessCE = true ∧
    filterSessions fmtCE "bc" [sessCE] = [] := by
  exact ⟨by decide, by decide⟩

/-- C6 (amended): `filterSessions` with the empty query returns the full
session list in order; for every query the result is a subsequence of the
list; and a session is kept exactly when the lowercased query occurs in its
lowercased title, formatted start time, or space-joined concatenation of
its messages' text (`sessionMatches`). -/
theorem c6_filterSessions_order_preserving_subset (fmt : String → String)
    (q : String) (sessions : List ChatSession) :
    filterSessions fmt "" sessions = sessions ∧
    (filterSessions fmt q sessions).Sublist sessions ∧
    (∀ s, s ∈ filterSessions fmt q sessions ↔
      s ∈ sessions ∧ sessionMatches fmt (jsToLower q) s = true) := by
  refine ⟨?_, List.filter_sublist sessions, fun s => List.mem_filter⟩
  apply List.filter_eq_self.mpr
  intro s _
  have he : jsToLower "" = "" := rfl
  rw [sessionMatches, he]
  have h1 : ∀ t : String, strIncludes t "" = true := by
    intro t
    rw [strIncludes]
    exact charsIncl_nil t.data
  simp [h1]

/-- Witness for C6 at a concrete format, query and session list. -/
theorem c6_witness :
    filterSessions fmtCE "" [sessCE, sessA] = [sessCE, sessA] ∧
    (filterSessions fmtCE "ab" [sessCE, sessA]).Sublist [sessCE, sessA] ∧
    (sessCE ∈ filterSessions fmtCE "ab" [sessCE, sessA] ↔
      sessCE ∈ [sessCE, sessA] ∧ sessionMatches fmtCE (jsToLower "ab") sessCE = true) := by
  have h := c6_filterSessions_order_preserving_subset fmtCE "ab" [sessCE, sessA]
  exact ⟨(c6_filterSessions_order_preserving_subset fmtCE "" [sessCE, sessA]).1,
    h.2.1, h.2.2 sessCE⟩

/-- Helper for C7: a signup whose trimmed username is non-empty preserves
distinctness of the stored usernames. -/
theorem signup_preserves_username_nodup (st : AppState) (raw avatar pw : String)
    (hraw : jsTrim raw ≠ "")
    (hnd : ((st.users.map (·.username)).Nodup)) :
    (((signup st raw avatar pw).users.map (·.username)).Nodup) := by
  rw [signup]
  cases hany : st.users.any (fun u => u.username == jsTrim raw) with
  | true => simpa using hnd
  | false =>
    have hbe : (jsTrim raw == "") = false := by
      cases hb : jsTrim raw == ""
      · rfl
      · exact absurd (by simpa using hb) hraw
    simp only [hany, Bool.false_eq_true, if_false, hbe, List.map_append, List.map_cons,
      List.map_nil]
    rw [List.nodup_append]
    refine ⟨hnd, List.nodup_singleton _, ?_⟩
    intro a ha hmem
    simp only [List.mem_singleton] at hmem
    subst hmem
    rw [List.mem_map] at ha
    obtain ⟨u, hu, hua⟩ := ha
    have : st.users.any (fun u => u.username == jsTrim raw) = true := by
      rw [List.any_eq_true]
      exact ⟨u, hu, by rw [hua]; exact beq_self_eq_true _⟩
    rw [hany] at this
    exact Bool.false_ne_true this

/-- Helper for C7: folding signups with non-empty trimmed usernames keeps
the stored usernames pairwise distinct. -/
theorem signups_fold_username_nodup (reqs : List (String × String × String)) :
    ∀ st : AppState, (∀ r ∈ reqs, jsTrim r.1 ≠ "") →
    ((st.users.map (·.username)).Nodup) →
    ((((reqs.foldl (fun acc r => signup acc r.1 r.2.1 r.2.2) st).users.map
        (·.username)).Nodup)) := by
  induction reqs with
  | nil => intro st _ hnd; simpa using hnd
  | cons r rest ih =>
    intro st hall hnd
    rw [List.foldl_cons]
    exact ih _ (fun x hx => hall x (List.mem_cons_of_mem r hx))
      (signup_preserves_username_nodup st r.1 r.2.1 r.2.2
        (hall r (List.mem_cons_self r rest)) hnd)

/-- C7 counterexample: two signups whose requested usernames are empty
after trimming both succeed — the duplicate check runs on the empty string
while `'User'` is stored — leaving two profiles named "User". -/
theorem c7_counterexample :
    ((runSignups [("", "🧑", "p"), ("  ", "🐶", "q")]).users.map (·.username))
      = ["User", "User"] ∧
    ¬ ((["User", "User"] : List String).Nodup) := by
  exact ⟨by decide, by simp⟩

/-- C7 (amended): along every signup sequence whose requested usernames are
non-empty after trimming, stored usernames stay pairwise distinct: a signup
whose trimmed username exists fails and changes nothing, and a successful
one inserts a username absent from the list. -/
theorem c7_signup_usernames_unique (reqs : List (String × String × String))
    (h : ∀ r ∈ reqs, jsTrim r.1 ≠ "") :
    (((runSignups reqs).users.map (·.username)).Nodup) := by
  rw [runSignups]
  exact signups_fold_username_nodup reqs (startState [] none) h (by simp [startState])

/-- Witness for C7 at a concrete two-request signup sequence. -/
theorem c7_witness :
    (∀ r ∈ [("alice", "🧑", "p"), ("bob", "🐶", "q")], jsTrim r.1 ≠ "") ∧
    (((runSignups [("alice", "🧑", "p"), ("bob", "🐶", "q")]).users.map
        (·.username)).Nodup) := by
  refine ⟨by decide, ?_⟩
  exact c7_signup_usernames_unique [("alice", "🧑", "p"), ("bob", "🐶", "q")] (by decide)

/-- C10: for the authenticated user (found at position `idx` of the
store), `deleteChatSession id` filters exactly the sessions with that id
out of that user's list — kept sessions keep their relative order (a
sublist) — and leaves every other profile, the store's length, and every
field of the owning profile other than its session list unchanged. -/
theorem c10_delete_removes_exactly_id (st : AppState) (cu : UserProfile)
    (idx j id : Nat)
    (h1 : st.currentUser = some cu)
    (h2 : findIndex (fun u => u.username == cu.username) st.users = some idx)
    (hj : j ≠ idx) :
    sessionsAt (deleteChatSession st id) idx =
      (sessionsAt st idx).filter (fun s => s.id != id) ∧
    (∀ s, s ∈ sessionsAt (deleteChatSession st id) idx → s.id ≠ id) ∧
    (∀ s, s ∈ sessionsAt st idx → s.id ≠ id →
      s ∈ sessionsAt (deleteChatSession st id) idx) ∧
    (sessionsAt (deleteChatSession st id) idx).Sublist (sessionsAt st idx) ∧
    ((deleteChatSession st id).users.getD idx GUEST_PROFILE).username =
      (st.users.getD idx GUEST_PROFILE).username ∧
    ((deleteChatSession st id).users.getD idx GUEST_PROFILE).avatar =
      (st.users.getD idx GUEST_PROFILE).avatar ∧
    ((deleteChatSession st id).users.getD idx GUEST_PROFILE).password =
      (st.users.getD idx GUEST_PROFILE).password ∧
    (deleteChatSession st id).users[j]? = st.users[j]? ∧
    (deleteChatSession st id).users.length = st.users.length := by
  have hidx : idx < st.users.length := findIndex_lt_length h2
  have husers : (deleteChatSession st id).users =
      st.users.set idx
        { st.users.getD idx GUEST_PROFILE with chatHistory :=
            ((st.users.getD idx GUEST_PROFILE).chatHistory.filter (fun s => s.id != id)) } := by
    show deleteChatSessionUsers st.users st.currentUser id = _
    rw [h1, deleteChatSessionUsers_found st.users cu id idx h2]
  have hself : (deleteChatSession st id).users.getD idx GUEST_PROFILE =
      { st.users.getD idx GUEST_PROFILE with chatHistory :=
          ((st.users.getD idx GUEST_PROFILE).chatHistory.filter (fun s => s.id != id)) } := by
    rw [husers]
    exact getD_set_self _ _ _ _ hidx
  have hat : sessionsAt (deleteChatSession st id) idx =
      (sessionsAt st idx).filter (fun s => s.id != id) := by
    rw [sessionsAt, hself]
    rfl
  refine ⟨hat, ?_, ?_, ?_, ?_, ?_, ?_, ?_, ?_⟩
  · intro s hs
    rw [hat, List.mem_filter] at hs
    simpa using hs.2
  · intro s hs hsid
    rw [hat, List.mem_filter]
    exact ⟨hs, by simpa using hsid⟩
  · rw [hat]
    exact List.filter_sublist _
  · rw [hself]
  · rw [hself]
  · rw [hself]
  · rw [husers]
    exact List.getElem?_set_ne (fun he => hj he.symm)
  · rw [husers, List.length_set]

/-- Witness for C10 at the concrete state `stDup` (session ids 5, 7, 5),
deleting id 5. -/
theorem c10_witness :
    stDup.currentUser = some { aliceProfile with chatHistory := [sessA, sessB, sessA2] } ∧
    sessionsAt (deleteChatSession stDup 5) 0 =
      (sessionsAt stDup 0).filter (fun s => s.id != 5) ∧
    (deleteChatSession stDup 5).users[1]? = stDup.users[1]? ∧
    sessionsAt (deleteChatSession stDup 5) 0 = [sessB] := by
  refine ⟨rfl, ?_, ?_, by decide⟩
  · exact (c10_delete_removes_exactly_id stDup
      { aliceProfile with chatHistory := [sessA, sessB, sessA2] } 0 1 5 rfl (by decide)
      (by decide)).1
  · exact (c10_delete_removes_exactly_id stDup
      { aliceProfile with chatHistory := [sessA, sessB, sessA2] } 0 1 5 rfl (by decide)
      (by decide)).2.2.2.2.2.2.2.1

/-- Shared helper: under an authenticated user found at `idx` and a
non-empty conversation, `saveChatSession` rewrites the store by replacing
the profile at `idx` with one whose session list gets the rebuilt session
at its head. -/
theorem saveChatSession_users_eq (st : AppState) (cu : UserProfile) (idx : Nat)
    (m : Message) (rest : List Message) (now : Nat) (nowIso : String)
    (h1 : st.currentUser = some cu)
    (hm : st.currentMessages = m :: rest)
    (h2 : findIndex (fun u => u.username == cu.username) st.users = some idx) :
    (saveChatSession st now nowIso).users =
      st.users.set idx
        { st.users.getD idx GUEST_PROFILE with chatHistory :=
            (newSessionOf m (m :: rest) st.currentLoadedSessionId now nowIso ::
              (st.users.getD idx GUEST_PROFILE).chatHistory.filter
                (fun s => !(some s.id == st.currentLoadedSessionId))) } := by
  show saveChatSessionUsers st.users st.currentUser st.currentMessages
      st.currentLoadedSessionId now nowIso = _
  rw [h1, hm, saveChatSessionUsers_found st.users cu m rest _ now nowIso idx h2]

/-- Shared helper: under the same hypotheses, the head of the stored
session list after a save holds exactly the pre-save conversation. -/
theorem saveChatSession_head_history (st : AppState) (cu : UserProfile) (idx : Nat)
    (m : Message) (rest : List Message) (now : Nat) (nowIso : String)
    (h1 : st.currentUser = some cu)
    (hm : st.currentMessages = m :: rest)
    (h2 : findIndex (fun u => u.username == cu.username) st.users = some idx) :
    (sessionsAt (saveChatSession st now nowIso) idx).head?.map (·.history) =
      some st.currentMessages := by
  have hidx : idx < st.users.length := findIndex_lt_length h2
  have h := saveChatSession_users_eq st cu idx m rest now nowIso h1 hm h2
  rw [sessionsAt, h, getD_set_self _ _ _ _ hidx]
  simp [newSessionOf, hm]

/-- C5: with an authenticated user and a non-empty active conversation,
each of the three switching transitions — start-new, load-a-session, and
logout — persists the current conversation (it becomes the head of the
stored session list) before the in-memory conversation is cleared or
replaced. -/
theorem c5_save_before_switch (st : AppState) (cu : UserProfile) (idx : Nat)
    (s : ChatSession) (now : Nat) (nowIso : String)
    (h1 : st.currentUser = some cu)
    (h2 : findIndex (fun u => u.username == cu.username) st.users = some idx)
    (hm : st.currentMessages ≠ []) :
    ((newChat st now nowIso).currentMessages = [] ∧
      (newChat st now nowIso).currentLoadedSessionId = none ∧
      (sessionsAt (newChat st now nowIso) idx).head?.map (·.history) =
        some st.currentMessages) ∧
    ((loadSession st s now nowIso).currentMessages = s.history ∧
      (loadSession st s now nowIso).currentLoadedSessionId = some s.id ∧
      (sessionsAt (loadSession st s now nowIso) idx).head?.map (·.history) =
        some st.currentMessages) ∧
    ((logout st now nowIso).currentUser = none ∧
      (logout st now nowIso).currentMessages = [] ∧
      (logout st now nowIso).sessionMarker = none ∧
      (sessionsAt (logout st now nowIso) idx).head?.map (·.history) =
        some st.currentMessages) := by
  obtain ⟨m, rest, hm'⟩ := List.exists_cons_of_ne_nil hm
  have key := saveChatSession_head_history st cu idx m rest now nowIso h1 hm' h2
  refine ⟨⟨rfl, rfl, ?_⟩, ⟨rfl, rfl, ?_⟩, ⟨rfl, rfl, rfl, ?_⟩⟩
  · exact key
  · exact key
  · exact key

/-- Witness for C5 at the concrete state `stFresh`. -/
theorem c5_witness :
    stFresh.currentMessages ≠ [] ∧
    (newChat stFresh 100 "d1").currentMessages = [] ∧
    (sessionsAt (newChat stFresh 100 "d1") 0).head?.map (·.history) =
      some stFresh.currentMessages ∧
    (sessionsAt (logout stFresh 100 "d1") 0).head?.map (·.history) =
      some stFresh.currentMessages := by
  refine ⟨by decide, ?_, ?_, ?_⟩
  · exact (c5_save_before_switch stFresh aliceProfile 0 sessA 100 "d1" rfl (by decide)
      (by decide)).1.1
  · exact (c5_save_before_switch stFresh aliceProfile 0 sessA 100 "d1" rfl (by decide)
      (by decide)).1.2.2
  · exact (c5_save_before_switch stFresh aliceProfile 0 sessA 100 "d1" rfl (by decide)
      (by decide)).2.2.2.2.2

theorem saveChatSession_currentUser (st : AppState) (t : Nat) (d : String) :
    (saveChatSession st t d).currentUser = st.currentUser := rfl

theorem saveChatSession_currentMessages (st : AppState) (t : Nat) (d : String) :
    (saveChatSession st t d).currentMessages = st.currentMessages := rfl

theorem saveChatSession_currentLoadedSessionId (st : AppState) (t : Nat) (d : String) :
    (saveChatSession st t d).currentLoadedSessionId = st.currentLoadedSessionId := rfl

/-- Shared helper: `findIndex` for the acting user is stable across a save
(the save replaces the profile at `idx` by one with the same username). -/
theorem findIndex_after_save (st : AppState) (cu : UserProfile) (idx : Nat)
    (m : Message) (rest : List Message) (now : Nat) (nowIso : String)
    (h1 : st.currentUser = some cu)
    (hm : st.currentMessages = m :: rest)
    (h2 : findIndex (fun u => u.username == cu.username) st.users = some idx) :
    findIndex (fun u => u.username == cu.username) (saveChatSession st now nowIso).users =
      some idx := by
  rw [saveChatSession_users_eq st cu idx m rest now nowIso h1 hm h2]
  refine findIndex_set_self ?_ h2
  exact findIndex_getD GUEST_PROFILE h2

/-- C1 counterexample: at `stFresh` (authenticated, one-message
conversation, no persisted-id) a save followed immediately by a second
save with no intervening edits grows the session list from one entry to
two, and the head session's id changes from 100 to 200. -/
theorem c1_counterexample :
    (profileSessions (saveChatSession stFresh 100 "d1").users "alice").length = 1 ∧
    (profileSessions (saveChatSession (saveChatSession stFresh 100 "d1") 200 "d2").users
      "alice").length = 2 ∧
    ((profileSessions (saveChatSession (saveChatSession stFresh 100 "d1") 200 "d2").users
      "alice").map (·.id)) = [200, 100] := by
  exact ⟨by decide, by decide, by decide⟩

/-- C1 (amended): when the active conversation carries a persisted-id
(`currentLoadedSessionId = some i`, `i ≠ 0`, i.e. a loaded or previously
persisted conversation), save followed immediately by save leaves the
owning profile's session list length unchanged and the saved session's id
equal to `i` both times.  Without a persisted-id each save appends a fresh
entry (see the counterexample). -/
theorem c1_double_save_idempotent_for_persisted_id (st : AppState) (cu : UserProfile)
    (idx i t1 t2 : Nat) (d1 d2 : String)
    (h1 : st.currentUser = some cu)
    (h2 : findIndex (fun u => u.username == cu.username) st.users = some idx)
    (hm : st.currentMessages ≠ [])
    (hid : st.currentLoadedSessionId = some i)
    (hi : i ≠ 0) :
    (sessionsAt (saveChatSession (saveChatSession st t1 d1) t2 d2) idx).length =
      (sessionsAt (saveChatSession st t1 d1) idx).length ∧
    (sessionsAt (saveChatSession st t1 d1) idx).head?.map (·.id) = some i ∧
    (sessionsAt (saveChatSession (saveChatSession st t1 d1) t2 d2) idx).head?.map (·.id) =
      some i := by
  obtain ⟨m, rest, hm'⟩ := List.exists_cons_of_ne_nil hm
  have hidx : idx < st.users.length := findIndex_lt_length h2
  have hbeq : (i == 0) = false := by
    cases hb : i == 0
    · rfl
    · exact absurd (by simpa using hb) hi
  have hnid : savedSessionId (st.currentLoadedSessionId) t1 = i := by
    rw [hid, savedSessionId, hbeq]
    rfl
  have h1users := saveChatSession_users_eq st cu idx m rest t1 d1 h1 hm' h2
  have hS1 : sessionsAt (saveChatSession st t1 d1) idx =
      newSessionOf m (m :: rest) st.currentLoadedSessionId t1 d1 ::
        (st.users.getD idx GUEST_PROFILE).chatHistory.filter
          (fun s => !(some s.id == st.currentLoadedSessionId)) := by
    rw [sessionsAt, h1users, getD_set_self _ _ _ _ hidx]
  have hcu1 : (saveChatSession st t1 d1).currentUser = some cu := h1
  have hm1 : (saveChatSession st t1 d1).currentMessages = m :: rest := hm'
  have hid1 : (saveChatSession st t1 d1).currentLoadedSessionId = some i := hid
  have h2' := findIndex_after_save st cu idx m rest t1 d1 h1 hm' h2
  have hidx1 : idx < (saveChatSession st t1 d1).users.length := by
    rw [h1users, List.length_set]
    exact hidx
  have h2users := saveChatSession_users_eq (saveChatSession st t1 d1) cu idx m rest t2 d2
    hcu1 hm1 h2'
  have hS2 : sessionsAt (saveChatSession (saveChatSession st t1 d1) t2 d2) idx =
      newSessionOf m (m :: rest) (saveChatSession st t1 d1).currentLoadedSessionId t2 d2 ::
        (sessionsAt (saveChatSession st t1 d1) idx).filter
          (fun s => !(some s.id ==
            (saveChatSession st t1 d1).currentLoadedSessionId)) := by
    rw [sessionsAt, h2users, getD_set_self _ _ _ _ hidx1]
    rfl
  have hpredn1 : (!(some (newSessionOf m (m :: rest) st.currentLoadedSessionId t1 d1).id ==
      (saveChatSession st t1 d1).currentLoadedSessionId)) = false := by
    rw [saveChatSession_currentLoadedSessionId, hid]
    have hnewid : (newSessionOf m (m :: rest) (some i) t1 d1).id = i := by
      simp [newSessionOf, savedSessionId, hbeq]
    rw [hnewid]
    simp
  have hfilterS1 : (sessionsAt (saveChatSession st t1 d1) idx).filter
      (fun s => !(some s.id == (saveChatSession st t1 d1).currentLoadedSessionId)) =
      (st.users.getD idx GUEST_PROFILE).chatHistory.filter
        (fun s => !(some s.id == st.currentLoadedSessionId)) := by
    rw [hS1, List.filter_cons]
    rw [hpredn1]
    simp only [Bool.false_eq_true, if_false]
    rw [saveChatSession_currentLoadedSessionId]
    apply List.filter_eq_self.mpr
    intro a ha
    exact (List.mem_filter.mp ha).2
  refine ⟨?_, ?_, ?_⟩
  · rw [hS2, hfilterS1, hS1]
    simp
  · rw [hS1]
    simp only [List.head?_cons, Option.map_some']
    rw [newSessionOf, hnid]
  · rw [hS2]
    simp only [List.head?_cons, Option.map_some']
    rw [newSessionOf]
    show some (savedSessionId (saveChatSession st t1 d1).currentLoadedSessionId t2) = some i
    rw [saveChatSession_currentLoadedSessionId, hid, savedSessionId, hbeq]
    rfl

/-- Witness for C1 at the concrete state `stLoaded` (persisted-id 5). -/
theorem c1_witness :
    stLoaded.currentLoadedSessionId = some 5 ∧
    (sessionsAt (saveChatSession (saveChatSession stLoaded 100 "d1") 200 "d2") 0).length =
      (sessionsAt (saveChatSession stLoaded 100 "d1") 0).length ∧
    (sessionsAt (saveChatSession (saveChatSession stLoaded 100 "d1") 200 "d2") 0).head?.map
      (·.id) = some 5 := by
  refine ⟨rfl, ?_, ?_⟩
  · exact (c1_double_save_idempotent_for_persisted_id stLoaded aliceWithSessions 0 5 100 200
      "d1" "d2" rfl (by decide) (by decide) rfl (by decide)).1
  · exact (c1_double_save_idempotent_for_persisted_id stLoaded aliceWithSessions 0 5 100 200
      "d1" "d2" rfl (by decide) (by decide) rfl (by decide)).2.2

/-- C8: on process start, a marker naming a stored profile authenticates
that profile; when its session list is non-empty its head (the most
recently saved session) becomes the active conversation with its
persisted-id set, and with an empty session list the conversation stays
empty.  An absent marker, or a marker naming no stored profile, starts
unauthenticated with an empty conversation and no persisted-id. -/
theorem c8_startup_restores_session (users : List UserProfile) (marker : Option String) :
    (∀ name profile, marker = some name → name ≠ "" →
      users.find? (fun u => u.username == name) = some profile →
      (startupState users marker).currentUser = some profile ∧
      (∀ latest older, profile.chatHistory = latest :: older →
        (startupState users marker).currentMessages = latest.history ∧
        (startupState users marker).currentLoadedSessionId = some latest.id) ∧
      (profile.chatHistory = [] →
        (startupState users marker).currentMessages = [] ∧
        (startupState users marker).currentLoadedSessionId = none)) ∧
    ((marker = none ∨ (∃ name, marker = some name ∧
        users.find? (fun u => u.username == name) = none)) →
      (startupState users marker).currentUser = none ∧
      (startupState users marker).currentMessages = [] ∧
      (startupState users marker).currentLoadedSessionId = none) := by
  constructor
  · intro name profile hmk hne hf
    subst hmk
    have hbe : (name == "") = false := by
      cases hb : name == ""
      · rfl
      · exact absurd (by simpa using hb) hne
    refine ⟨?_, ?_, ?_⟩
    · cases hch : profile.chatHistory with
      | nil => simp [startupState, checkCurrentUserSession, startState, hbe, hf, hch]
      | cons latest older =>
        simp [startupState, checkCurrentUserSession, startState, hbe, hf, hch]
    · intro latest older hch
      constructor
      · simp [startupState, checkCurrentUserSession, startState, hbe, hf, hch]
      · simp [startupState, checkCurrentUserSession, startState, hbe, hf, hch]
    · intro hch
      constructor
      · simp [startupState, checkCurrentUserSession, startState, hbe, hf, hch]
      · simp [startupState, checkCurrentUserSession, startState, hbe, hf, hch]
  · intro hcase
    rcases hcase with hnone | ⟨name, hmk, hf⟩
    · subst hnone
      exact ⟨rfl, rfl, rfl⟩
    · subst hmk
      cases hbe : name == "" with
      | true => simp [startupState, checkCurrentUserSession, startState, hbe]
      | false => simp [startupState, checkCurrentUserSession, startState, hbe, hf]

/-- Witness for C8: a marker naming alice (two saved sessions) restores
`sessA`; a marker naming nobody starts unauthenticated. -/
theorem c8_witness :
    ((startupState [aliceWithSessions] (some "alice")).currentUser =
        some aliceWithSessions ∧
      (startupState [aliceWithSessions] (some "alice")).currentMessages = sessA.history ∧
      (startupState [aliceWithSessions] (some "alice")).currentLoadedSessionId =
        some sessA.id) ∧
    ((startupState [aliceProfile] (some "bob")).currentUser = none ∧
      (startupState [aliceProfile] (some "bob")).currentMessages = []) := by
  constructor
  · have h := (c8_startup_restores_session [aliceWithSessions] (some "alice")).1 "alice"
      aliceWithSessions rfl (by decide) (by decide)
    have h2 := h.2.1 sessA [sessB] rfl
    exact ⟨h.1, h2.1, h2.2⟩
  · have h := (c8_startup_restores_session [aliceProfile] (some "bob")).2
      (Or.inr ⟨"bob", rfl, by decide⟩)
    exact ⟨h.1, h.2.1⟩

/-- C3 counterexample: taking "save" and "start-new" as two separate core
operations, the literal sequence signup "alice"; send "hi" (fragments
"hel","lo"); save; start-new; send "bye"; save leaves alice with THREE
sessions ("bye...", "hi...", "hi...") — not two — because start-new saves
again and the first save recorded no persisted-id, duplicating the "hi"
conversation. -/
theorem c3_counterexample :
    (profileSessions c3LitState5.users "alice").length = 3 ∧
    (profileSessions c3LitState5.users "alice").map (·.title) =
      ["bye...", "hi...", "hi..."] := by
  exact ⟨by decide, by decide⟩

/-- C3 (amended): with start-new performing the save (as the UI does —
there is no separate save step), the scenario runs as specified: signup
"alice" yields a one-entry store with an empty session list; sending "hi"
with fragments "hel","lo" yields the conversation USER "hi", MODEL
"hello"; start-new persists it as one session titled "hi..."; sending
"bye" and saving yields two sessions, newest first: "bye" then "hi". -/
theorem c3_scenario_newest_first :
    c3State1.users.map (fun u => (u.username, u.chatHistory)) = [("alice", [])] ∧
    c3State2.currentMessages.map (fun m => (m.role, m.text)) =
      [(Role.user, "hi"), (Role.model, "hello")] ∧
    (profileSessions c3State3.users "alice").map (·.title) = ["hi..."] ∧
    (profileSessions c3State5.users "alice").map (·.title) = ["bye...", "hi..."] ∧
    (profileSessions c3State5.users "alice").map (fun s => s.history.map (·.text)) =
      [["bye", "ok"], ["hi", "hello"]] := by
  exact ⟨by decide, by decide, by decide, by decide, by decide⟩

/-- Helper for C4: as long as the minted timestamp differs from `sid` and
`sid ≠ 0`, a save keeps the number of stored sessions with id `sid` at
exactly one. -/
theorem save_preserves_unique_id_count (st : AppState) (cu : UserProfile) (idx : Nat)
    (sid now : Nat) (nowIso : String)
    (h1 : st.currentUser = some cu)
    (h2 : findIndex (fun u => u.username == cu.username) st.users = some idx)
    (hs0 : sid ≠ 0)
    (hfresh : now ≠ sid)
    (hcount : countIdIn (sessionsAt st idx) sid = 1) :
    countIdIn (sessionsAt (saveChatSession st now nowIso) idx) sid = 1 := by
  cases hmsgs : st.currentMessages with
  | nil =>
    have husers : (saveChatSession st now nowIso).users = st.users := by
      show saveChatSessionUsers st.users st.currentUser st.currentMessages
          st.currentLoadedSessionId now nowIso = st.users
      rw [h1, hmsgs]
      rfl
    rw [countIdIn, sessionsAt, husers]
    exact hcount
  | cons m rest =>
    have hidx : idx < st.users.length := findIndex_lt_length h2
    have husers := saveChatSession_users_eq st cu idx m rest now nowIso h1 hmsgs h2
    have hS : sessionsAt (saveChatSession st now nowIso) idx =
        newSessionOf m (m :: rest) st.currentLoadedSessionId now nowIso ::
          (st.users.getD idx GUEST_PROFILE).chatHistory.filter
            (fun s => !(some s.id == st.currentLoadedSessionId)) := by
      rw [sessionsAt, husers, getD_set_self _ _ _ _ hidx]
    rw [countIdIn, sessionsAt] at hcount
    rw [countIdIn, hS, List.countP_cons]
    cases hload : st.currentLoadedSessionId with
    | none =>
      have hfilter : (st.users.getD idx GUEST_PROFILE).chatHistory.filter
          (fun s => !(some s.id == (none : Option Nat))) =
          (st.users.getD idx GUEST_PROFILE).chatHistory := by
        apply List.filter_eq_self.mpr
        intro a _
        rfl
      rw [hfilter]
      have hn : ((newSessionOf m (m :: rest) none now nowIso).id == sid) = false := by
        show (now == sid) = false
        simpa using hfresh
      rw [hn]
      simpa using hcount
    | some j =>
      cases hj0 : j == 0 with
      | true =>
        have hj : j = 0 := by simpa using hj0
        subst hj
        have hn : ((newSessionOf m (m :: rest) (some 0) now nowIso).id == sid) = false := by
          show (savedSessionId (some 0) now == sid) = false
          rw [savedSessionId]
          simpa using hfresh
        rw [hn]
        have hfilter : ((st.users.getD idx GUEST_PROFILE).chatHistory.filter
            (fun s => !(some s.id == some 0))).countP (fun s => s.id == sid) =
            ((st.users.getD idx GUEST_PROFILE).chatHistory).countP
              (fun s => s.id == sid) := by
          apply countP_filter_of_imp
          intro a ha
          have ha' : a.id = sid := by simpa using ha
          show (!(a.id == 0)) = true
          rw [ha']
          have : (sid == 0) = false := by simpa using hs0
          rw [this]
          rfl
        rw [hfilter]
        simpa using hcount
      | false =>
        have hn2 : (newSessionOf m (m :: rest) (some j) now nowIso).id = j := by
          show savedSessionId (some j) now = j
          rw [savedSessionId]
          rw [hj0]
          rfl
        cases hjs : j == sid with
        | true =>
          have hj : j = sid := by simpa using hjs
          subst hj
          have hzero : ((st.users.getD idx GUEST_PROFILE).chatHistory.filter
              (fun s => !(some s.id == some j))).countP (fun s => s.id == j) = 0 := by
            apply countP_filter_zero
            intro a ha
            have ha' : a.id = j := by simpa using ha
            show (!(a.id == j)) = false
            rw [ha']
            simp
          rw [hzero, hn2]
          simp
        | false =>
          have hn : ((newSessionOf m (m :: rest) (some j) now nowIso).id == sid) = false := by
            rw [hn2]
            exact hjs
          rw [hn]
          have hjne : j ≠ sid := by simpa using hjs
          have hfilter : ((st.users.getD idx GUEST_PROFILE).chatHistory.filter
              (fun s => !(some s.id == some j))).countP (fun s => s.id == sid) =
              ((st.users.getD idx GUEST_PROFILE).chatHistory).countP
                (fun s => s.id == sid) := by
            apply countP_filter_of_imp
            intro a ha
            have ha' : a.id = sid := by simpa using ha
            show (!(a.id == j)) = true
            rw [ha']
            have : (sid == j) = false := by simpa using (Ne.symm hjne)
            rw [this]
            rfl
          rw [hfilter]
          simpa using hcount

/-- C4: loading a saved session `s` (whose id occurs exactly once in the
authenticated user's list, is non-zero, and differs from the fresh
timestamp minted by the load's own preliminary save) and then saving
replaces the entry with id `s.id`: relative to the post-load list the
length is unchanged, the rebuilt session sits at the head carrying
`s.id` and `s.history`, and `s.id` still occurs exactly once. -/
theorem c4_load_then_save_replaces_same_id (st : AppState) (cu : UserProfile)
    (s : ChatSession) (idx t1 t2 : Nat) (d1 d2 : String)
    (h1 : st.currentUser = some cu)
    (h2 : findIndex (fun u => u.username == cu.username) st.users = some idx)
    (hs0 : s.id ≠ 0)
    (hne : s.history ≠ [])
    (hcount : countIdIn (sessionsAt st idx) s.id = 1)
    (hfresh : t1 ≠ s.id) :
    (sessionsAt (saveChatSession (loadSession st s t1 d1) t2 d2) idx).length =
      (sessionsAt (loadSession st s t1 d1) idx).length ∧
    (sessionsAt (saveChatSession (loadSession st s t1 d1) t2 d2) idx).head?.map
      (fun c => (c.id, c.history)) = some (s.id, s.history) ∧
    countIdIn (sessionsAt (saveChatSession (loadSession st s t1 d1) t2 d2) idx) s.id
      = 1 := by
  have hcount1 : countIdIn (sessionsAt (loadSession st s t1 d1) idx) s.id = 1 :=
    save_preserves_unique_id_count st cu idx s.id t1 d1 h1 h2 hs0 hfresh hcount
  have h2' : findIndex (fun u => u.username == cu.username)
      (loadSession st s t1 d1).users = some idx := by
    cases hmsgs : st.currentMessages with
    | nil =>
      show findIndex (fun u => u.username == cu.username)
        (saveChatSession st t1 d1).users = some idx
      have husers : (saveChatSession st t1 d1).users = st.users := by
        show saveChatSessionUsers st.users st.currentUser st.currentMessages
            st.currentLoadedSessionId t1 d1 = st.users
        rw [h1, hmsgs]
        rfl
      rw [husers]
      exact h2
    | cons m rest =>
      exact findIndex_after_save st cu idx m rest t1 d1 h1 hmsgs h2
  have hidx1 : idx < (loadSession st s t1 d1).users.length := findIndex_lt_length h2'
  have hcu1 : (loadSession st s t1 d1).currentUser = some cu := h1
  obtain ⟨m1, rest1, hh⟩ := List.exists_cons_of_ne_nil hne
  have hm1 : (loadSession st s t1 d1).currentMessages = m1 :: rest1 := hh
  have hid1 : (loadSession st s t1 d1).currentLoadedSessionId = some s.id := rfl
  have husers2 := saveChatSession_users_eq (loadSession st s t1 d1) cu idx m1 rest1 t2 d2
    hcu1 hm1 h2'
  have hS2 : sessionsAt (saveChatSession (loadSession st s t1 d1) t2 d2) idx =
      newSessionOf m1 (m1 :: rest1) (some s.id) t2 d2 ::
        (sessionsAt (loadSession st s t1 d1) idx).filter
          (fun c => !(some c.id == some s.id)) := by
    rw [sessionsAt, husers2, getD_set_self _ _ _ _ hidx1]
    rw [hid1]
    rfl
  have hbeq0 : (s.id == 0) = false := by simpa using hs0
  have hn2id : (newSessionOf m1 (m1 :: rest1) (some s.id) t2 d2).id = s.id := by
    show savedSessionId (some s.id) t2 = s.id
    rw [savedSessionId, hbeq0]
    rfl
  rw [countIdIn, sessionsAt] at hcount1
  refine ⟨?_, ?_, ?_⟩
  · rw [hS2]
    have e1 : ((((loadSession st s t1 d1).users.getD idx GUEST_PROFILE).chatHistory).filter
        (fun c => !(some c.id == some s.id))).length =
        (((loadSession st s t1 d1).users.getD idx GUEST_PROFILE).chatHistory).countP
          (fun c => !(some c.id == some s.id)) :=
      (List.countP_eq_length_filter _ _).symm
    have e2 : (((loadSession st s t1 d1).users.getD idx GUEST_PROFILE).chatHistory).countP
        (fun c => c.id == s.id) +
        (((loadSession st s t1 d1).users.getD idx GUEST_PROFILE).chatHistory).countP
          (fun c => !(some c.id == some s.id)) =
        (((loadSession st s t1 d1).users.getD idx GUEST_PROFILE).chatHistory).length :=
      countP_add_countP_bnot (fun c : ChatSession => c.id == s.id) _
    simp only [sessionsAt]
    rw [List.length_cons, e1]
    omega
  · rw [hS2]
    simp only [List.head?_cons, Option.map_some']
    rw [hn2id]
    have : (newSessionOf m1 (m1 :: rest1) (some s.id) t2 d2).history = s.history := by
      show m1 :: rest1 = s.history
      exact hh.symm
    rw [this]
  · rw [countIdIn, hS2, List.countP_cons]
    have hzero : ((sessionsAt (loadSession st s t1 d1) idx).filter
        (fun c => !(some c.id == some s.id))).countP (fun c => c.id == s.id) = 0 := by
      apply countP_filter_zero
      intro a ha
      have ha' : a.id = s.id := by simpa using ha
      show (!(a.id == s.id)) = false
      rw [ha']
      simp
    have hone : ((newSessionOf m1 (m1 :: rest1) (some s.id) t2 d2).id == s.id) = true := by
      rw [hn2id]
      simp
    rw [hone]
    have : ((sessionsAt (loadSession st s t1 d1) idx).filter
        (fun c => !(some c.id == some s.id))).countP (fun c => c.id == s.id) + 1 = 1 := by
      rw [hzero]
    exact this

/-- Witness for C4: at `stLoaded`, load `sessB` (id 7) then save. -/
theorem c4_witness :
    countIdIn (sessionsAt stLoaded 0) sessB.id = 1 ∧
    (sessionsAt (saveChatSession (loadSession stLoaded sessB 100 "d1") 200 "d2") 0).length =
      (sessionsAt (loadSession stLoaded sessB 100 "d1") 0).length ∧
    (sessionsAt (saveChatSession (loadSession stLoaded sessB 100 "d1") 200 "d2")
      0).head?.map (fun c => (c.id, c.history)) = some (sessB.id, sessB.history) ∧
    countIdIn (sessionsAt (saveChatSession (loadSession stLoaded sessB 100 "d1") 200 "d2")
      0) sessB.id = 1 := by
  have h := c4_load_then_save_replaces_same_id stLoaded aliceWithSessions sessB 0 100 200
    "d1" "d2" rfl (by decide) (by decide) (by decide) (by decide) (by decide)
  exact ⟨by decide, h.1, h.2.1, h.2.2⟩

end AIChat
